/-
Verification of the Tally accounting-data normalization engine.

This file gives a shallow embedding of the core parsing / normalization /
trial-balance functions of the repository (src/tally_client.py and
src/dashboard.py) and proves the specification claims about them.

Modelling conventions:
* Python floats are modelled as exact rationals (`Rat`).  Every operation the
  claims mention (parsing a decimal literal, negation, absolute value,
  addition of parsed values) is sign- and magnitude-exact, so the rational
  model is faithful for the stated properties.
* Python `str` is modelled as `String` / `List Char`; `str.strip`, `\s` and
  `str.lower` are modelled over the ASCII range actually exercised by the
  data formats involved (digits, '.', '-', ',', 'D', 'r', 'C', spaces).
* `xml.etree` element trees are modelled by records holding the already
  located text fields (`findtext` results are `Option String`, `none` when
  the element is absent, `some ""` when present but empty).
* Python exceptions are modelled with `Except`: `ValueError` raised by
  `date.fromisoformat` becomes an `Except.error`, and the `ET.ParseError`
  caught by `fetch_daybook` is a distinguished constructor of the response
  type.
* `dict` comprehensions keep first-insertion key order with last-value-wins
  semantics; both are modelled explicitly (`dictKeys`, `lastWithKey`).
-/
import Mathlib

namespace Tally

/-! ### String and character helpers mirroring the Python primitives -/

/-- The whitespace characters recognised by Python's `str.strip` / regex `\s`
(ASCII range). -/
def pyIsSpace (c : Char) : Bool :=
  c = ' ' || c = '\t' || c = '\n' || c = '\r' || c = '\x0b' || c = '\x0c'

/-- `str.strip()`: drop whitespace on both ends. -/
def stripChars (l : List Char) : List Char :=
  ((l.dropWhile pyIsSpace).reverse.dropWhile pyIsSpace).reverse

/-- `str.replace(",", "")`. -/
def removeCommas (l : List Char) : List Char :=
  l.filter (fun c => c ≠ ',')

def strStrip (s : String) : String := String.mk (stripChars s.toList)

def strLower (s : String) : String := String.mk (s.toList.map Char.toLower)

/-- Does `hay` start with `needle`? -/
def listStartsWith : List Char → List Char → Bool
  | _, [] => true
  | [], _ :: _ => false
  | h :: t, n :: ns => h == n && listStartsWith t ns

/-- Python's substring test `needle in hay`. -/
def containsSub : List Char → List Char → Bool
  | [], needle => needle.isEmpty
  | h :: t, needle => listStartsWith (h :: t) needle || containsSub t needle

def strContains (hay needle : String) : Bool :=
  containsSub hay.toList needle.toList

/-- Value of a digit string, most significant first. -/
def digitsToNat (l : List Char) : Nat :=
  l.foldl (fun a c => 10 * a + (c.toNat - 48)) 0

/-! ### The amount regex `(-?\d*\.?\d+)(?:\s*(Dr|Cr))?`

`_to_float` and `_normalize_drcr` both anchor this regex at the start of the
cleaned string (`re.match`); trailing text after the optional suffix is
ignored.  `parseNumber` reproduces the greedy-with-backtracking semantics of
the numeric group and `parseSuffix` the optional `\s*(Dr|Cr)` group. -/

/-- Python `abs()` on a rational. -/
def pyAbs (v : Rat) : Rat := if v < 0 then -v else v

/-- Exact value of the decimal literal `ip.fp` (integer and fractional digit
strings), negated when `neg` is set: the value Python's `float` denotes. -/
def ratOfParts (neg : Bool) (ip fp : List Char) : Rat :=
  let n : Rat := mkRat (digitsToNat (ip ++ fp)) (10 ^ fp.length)
  if neg then -n else n

/-- Match `-?\d*\.?\d+` at the start of `cs`; return the value and the rest of
the input.  When the optional `.` is present but not followed by a digit the
engine backtracks and the match ends with the integer part. -/
def parseNumber (cs : List Char) : Option (Rat × List Char) :=
  let (neg, rest) := match cs with
    | '-' :: t => (true, t)
    | _ => (false, cs)
  let ip := rest.takeWhile Char.isDigit
  let rest1 := rest.dropWhile Char.isDigit
  match rest1 with
  | '.' :: t =>
    let fp := t.takeWhile Char.isDigit
    if fp ≠ [] then some (ratOfParts neg ip fp, t.dropWhile Char.isDigit)
    else if ip ≠ [] then some (ratOfParts neg ip [], rest1)
    else none
  | _ =>
    if ip ≠ [] then some (ratOfParts neg ip [], rest1)
    else none

inductive DrCr
  | dr
  | cr
deriving DecidableEq, Repr

/-- The optional `(?:\s*(Dr|Cr))?` group, case-insensitive. -/
def parseSuffix (cs : List Char) : Option DrCr :=
  match cs.dropWhile pyIsSpace with
  | c1 :: c2 :: _ =>
    if c1.toLower = 'd' && c2.toLower = 'r' then some .dr
    else if c1.toLower = 'c' && c2.toLower = 'r' then some .cr
    else none
  | _ => none

/-- Full match of the amount regex: numeric value plus optional Dr/Cr suffix. -/
def parseAmount (cs : List Char) : Option (Rat × Option DrCr) :=
  (parseNumber cs).map (fun p => (p.1, parseSuffix p.2))

/-- `(value or "").replace(",", "").strip()` as performed by
`_normalize_drcr`. -/
def cleanBalance (s : String) : List Char :=
  stripChars (removeCommas s.toList)

/-- `tally_client._normalize_drcr`: convert Dr/Cr suffixed opening balances to
signed values; a bare number is negated, an unparseable string maps to 0. -/
def normalize_drcr (value : String) : Rat :=
  let cleaned := cleanBalance value
  if cleaned = [] then 0
  else
    match parseAmount cleaned with
    | none => 0
    | some (v, some .cr) => -(pyAbs v)
    | some (v, some .dr) => pyAbs v
    | some (v, none) => -v

/-- `tally_client._to_float`: Day Book amount parser.  `none` models a Python
`None` argument; an empty string is replaced by `"0"` (Python `value or "0"`). -/
def to_float (value : Option String) : Rat :=
  let s := match value with
    | none => "0"
    | some s => if s.isEmpty then "0" else s
  let cleaned := stripChars (removeCommas s.toList)
  if cleaned = [] ∨ cleaned = ['-'] then 0
  else
    match parseAmount cleaned with
    | none => 0
    | some (v, some .cr) => -(pyAbs v)
    | some (v, some .dr) => pyAbs v
    | some (v, none) => v

/-! ### Calendar dates (`datetime.date`) -/

/-- A Python `datetime.date` value (year, month, day). -/
structure PyDate where
  year : Nat
  month : Nat
  day : Nat
deriving DecidableEq, Repr

/-- `datetime.date` order (`<=`): lexicographic on (year, month, day). -/
def dateLe (a b : PyDate) : Bool :=
  decide (a.year < b.year ∨ (a.year = b.year ∧
    (a.month < b.month ∨ (a.month = b.month ∧ a.day ≤ b.day))))

/-- `datetime.date` strict order (`<`). -/
def dateLt (a b : PyDate) : Bool :=
  decide (a.year < b.year ∨ (a.year = b.year ∧
    (a.month < b.month ∨ (a.month = b.month ∧ a.day < b.day))))

/-- `tally_client._fiscal_year_start`: April 1 of the anchor's year when its
month is ≥ 4, else April 1 of the previous year. -/
def fiscal_year_start (anchor : PyDate) : PyDate :=
  { year := if 4 ≤ anchor.month then anchor.year else anchor.year - 1,
    month := 4, day := 1 }

def isLeapYear (y : Nat) : Bool :=
  y % 4 = 0 && (y % 100 ≠ 0 || y % 400 = 0)

def daysInMonth (y m : Nat) : Nat :=
  if m = 2 then (if isLeapYear y then 29 else 28)
  else if m = 4 ∨ m = 6 ∨ m = 9 ∨ m = 11 then 30
  else 31

/-- `date.fromisoformat(f"{t[:4]}-{t[4:6]}-{t[6:]}")` applied to an 8-character
field `t`: succeeds exactly when all characters are digits and the year, month
and day are in calendar range; otherwise Python raises `ValueError`. -/
def parseIsoDate8 (s : String) : Option PyDate :=
  let cs := s.toList
  if cs.all Char.isDigit then
    let y := digitsToNat (cs.take 4)
    let m := digitsToNat ((cs.drop 4).take 2)
    let d := digitsToNat (cs.drop 6)
    if 1 ≤ y ∧ y ≤ 9999 ∧ 1 ≤ m ∧ m ≤ 12 ∧ 1 ≤ d ∧ d ≤ daysInMonth y m then
      some ⟨y, m, d⟩
    else none
  else none

/-! ### Voucher extraction (`tally_client._parse_daybook`) -/

/-- `tally_client.LedgerEntry`. -/
structure LedgerEntry where
  ledger_name : String
  amount : Rat
  is_debit : Bool
deriving DecidableEq, Repr

/-- `tally_client.Voucher`. -/
structure Voucher where
  voucher_type : String
  vdate : PyDate
  ledger_entries : List LedgerEntry
  voucher_narration : String
  voucher_number : Option String
deriving DecidableEq, Repr

/-- One `*ENTRIES.LIST` element: the `findtext` results the extractor reads.
`none` models a missing child element. -/
structure EntryElem where
  ledgername : Option String
  stockitemname : Option String
  amountText : Option String
  isdeemedpositive : Option String
deriving DecidableEq, Repr

/-- `entry.findtext("LEDGERNAME", "") or entry.findtext("STOCKITEMNAME", "")
or "(Unknown Ledger)"`. -/
def entryLedgerName (e : EntryElem) : String :=
  let l := e.ledgername.getD ""
  if ¬l.isEmpty then l
  else
    let s := e.stockitemname.getD ""
    if ¬s.isEmpty then s else "(Unknown Ledger)"

/-- The debit/credit resolution of `_parse_daybook`: the raw amount's sign
wins; the deemed-positive flag (already stripped and lowered) only decides
when the amount is exactly zero; otherwise the entry is dropped. -/
def resolveIsDebit (amount_raw : Rat) (deemed : String) : Option Bool :=
  if 0 < amount_raw then some true
  else if amount_raw < 0 then some false
  else if deemed = "no" ∨ deemed = "n" ∨ deemed = "false" then some true
  else if deemed = "yes" ∨ deemed = "y" ∨ deemed = "true" then some false
  else none

/-- The per-entry body of `_parse_daybook`'s inner loop: `none` when the entry
is skipped (`continue`), otherwise the `LedgerEntry` appended. -/
def extractEntry (e : EntryElem) : Option LedgerEntry :=
  let ledger := entryLedgerName e
  let amount_raw := to_float e.amountText
  let deemed := strLower (strStrip (e.isdeemedpositive.getD ""))
  let amount_abs := pyAbs amount_raw
  match resolveIsDebit amount_raw deemed with
  | none => none
  | some b => if amount_abs = 0 then none else some ⟨ledger, amount_abs, b⟩

/-- `tally_client._first_non_empty` over stripped candidates (also the body of
`_extract_voucher_type`'s probing loop). -/
def first_non_empty : List (Option String) → String
  | [] => ""
  | c :: rest =>
    let cleaned := strStrip (c.getD "")
    if ¬cleaned.isEmpty then cleaned else first_non_empty rest

/-- One `VOUCHER` element: the fields `_parse_daybook` and
`_extract_voucher_type` read, plus the four alternative entry lists. -/
structure VoucherElem where
  dateText : String
  vchTypeAttr : Option String
  voucherTypeAttr : Option String
  voucherTypeName : Option String
  vchTypeText : Option String
  voucherTypeText : Option String
  basicVchType : Option String
  narrationText : Option String
  voucherNumberText : Option String
  allLedgerEntries : List EntryElem
  ledgerEntriesAlt : List EntryElem
  allInventoryEntries : List EntryElem
  inventoryEntriesAlt : List EntryElem
deriving DecidableEq, Repr

/-- `tally_client._extract_voucher_type`. -/
def extract_voucher_type (v : VoucherElem) : String :=
  let r := first_non_empty
    [v.vchTypeAttr, v.voucherTypeAttr, v.voucherTypeName,
     v.vchTypeText, v.voucherTypeText, v.basicVchType]
  if r.isEmpty then "(Unknown)" else r

/-- The entry elements of a voucher in the order the four
`entry_tags` are scanned. -/
def voucherEntryElems (v : VoucherElem) : List EntryElem :=
  v.allLedgerEntries ++ v.ledgerEntriesAlt ++ v.allInventoryEntries ++ v.inventoryEntriesAlt

/-- Python exceptions that can escape `_parse_daybook`. -/
inductive PyErr
  | valueError (msg : String)
deriving DecidableEq, Repr

/-- The body of `_parse_daybook`'s outer loop for one voucher element:
`ok none` when the voucher is skipped (length-guard or no surviving entries),
`error` when `date.fromisoformat` raises `ValueError`. -/
def parse_voucher (v : VoucherElem) : Except PyErr (Option Voucher) :=
  if v.dateText.length ≠ 8 then .ok none
  else
    match parseIsoDate8 v.dateText with
    | none => .error (.valueError "invalid isoformat date")
    | some d =>
      let entries := (voucherEntryElems v).filterMap extractEntry
      if entries = [] then .ok none
      else .ok (some
        { voucher_type := extract_voucher_type v
          vdate := d
          ledger_entries := entries
          voucher_narration := strStrip (v.narrationText.getD "")
          voucher_number :=
            let n := strStrip (v.voucherNumberText.getD "")
            if n.isEmpty then none else some n })

/-- `list(tally_client._parse_daybook(raw))` over the voucher elements found
in the payload: a `ValueError` raised at any voucher aborts the whole batch. -/
def parse_daybook : List VoucherElem → Except PyErr (List Voucher)
  | [] => .ok []
  | v :: vs =>
    match parse_voucher v with
    | .error e => .error e
    | .ok none => parse_daybook vs
    | .ok (some voucher) => (parse_daybook vs).map (voucher :: ·)

instance instDecEqExcept {E A : Type} [DecidableEq E] [DecidableEq A] :
    DecidableEq (Except E A) := fun a b =>
  match a, b with
  | .error e1, .error e2 =>
    if h : e1 = e2 then .isTrue (h ▸ rfl)
    else .isFalse (fun hc => h (Except.error.inj hc))
  | .error _, .ok _ => .isFalse (fun hc => Except.noConfusion hc)
  | .ok _, .error _ => .isFalse (fun hc => Except.noConfusion hc)
  | .ok a1, .ok a2 =>
    if h : a1 = a2 then .isTrue (h ▸ rfl)
    else .isFalse (fun hc => h (Except.ok.inj hc))

/-- The sanitized response text seen by `fetch_daybook`, abstracted over the
transport: empty, unparseable XML (raises `ET.ParseError` in `ET.fromstring`),
or a well-formed payload with its voucher elements. -/
inductive DaybookResponse
  | empty
  | malformed
  | parsed (vs : List VoucherElem)
deriving DecidableEq, Repr

/-- `tally_client.fetch_daybook` after the transport call: an empty response
yields `[]`, an `ET.ParseError` is caught and yields `[]`, but a `ValueError`
from date parsing propagates to the caller. -/
def fetch_daybook : DaybookResponse → Except PyErr (List Voucher)
  | .empty => .ok []
  | .malformed => .ok []
  | .parsed vs => parse_daybook vs

/-! ### Group classification (`tally_client.classify_type`) -/

/-- `tally_client.classify_type`: derive Asset/Liability/Income/Expense from
the group's nature, falling back to keywords in `group_name + " " + parent_name`. -/
def classify_type (nature : Option String) (group_name parent_name : String) : String :=
  let nature_clean := strLower (nature.getD "")
  if strContains nature_clean "asset" then "Asset"
  else if strContains nature_clean "liabilit" then "Liability"
  else if strContains nature_clean "income" || strContains nature_clean "revenue"
      || strContains nature_clean "sale" then "Income"
  else if strContains nature_clean "expense" || strContains nature_clean "purchase" then "Expense"
  else
    let normalized := strLower (group_name ++ " " ++ parent_name)
    if strContains normalized "income" || strContains normalized "revenue"
        || strContains normalized "sale" then "Income"
    else if strContains normalized "expense" || strContains normalized "purchase" then "Expense"
    else if strContains normalized "liability" then "Liability"
    else if strContains normalized "asset" then "Asset"
    else "Asset"

/-- The primary keyword pass of `classify_type` over the nature text, as an
ordered rule list: asset, liabilit, income/revenue/sale, expense/purchase. -/
def natureKeywordRule (nc : String) : Option String :=
  if strContains nc "asset" then some "Asset"
  else if strContains nc "liabilit" then some "Liability"
  else if strContains nc "income" || strContains nc "revenue"
      || strContains nc "sale" then some "Income"
  else if strContains nc "expense" || strContains nc "purchase" then some "Expense"
  else none

/-- The fallback keyword pass of `classify_type` over the lower-cased
`group_name + " " + parent_name` text.  Its priority differs from the primary
pass: income/revenue/sale first, then expense/purchase, then the full word
"liability" (not the stem "liabilit"), then "asset". -/
def fallbackKeywordRule (s : String) : Option String :=
  if strContains s "income" || strContains s "revenue"
      || strContains s "sale" then some "Income"
  else if strContains s "expense" || strContains s "purchase" then some "Expense"
  else if strContains s "liability" then some "Liability"
  else if strContains s "asset" then some "Asset"
  else none

/-! ### The voucher table (`dashboard._voucher_dataframe`) -/

/-- One row of the voucher DataFrame. -/
structure VoucherRow where
  rdate : PyDate
  voucher_no : Option String
  voucher_type : String
  ledger : String
  debit : Rat
  credit : Rat
  nett : Rat
deriving DecidableEq, Repr

/-- The row `dashboard._voucher_dataframe` appends for one (voucher, entry)
pair.  Note the deliberate column swap in the source: what the entry
orientation calls debit is emitted in the `Credit` column and vice versa, and
`Nett` is computed from the swapped columns. -/
def rowOfEntry (v : Voucher) (e : LedgerEntry) : VoucherRow :=
  let debit_amount : Rat := if e.is_debit then e.amount else 0
  let credit_amount : Rat := if ¬e.is_debit then e.amount else 0
  let corrected_debit := credit_amount
  let corrected_credit := debit_amount
  let net := corrected_debit - corrected_credit
  { rdate := v.vdate
    voucher_no := v.voucher_number
    voucher_type := v.voucher_type
    ledger := e.ledger_name
    debit := corrected_debit
    credit := corrected_credit
    nett := net }

/-- `dashboard._voucher_dataframe`. -/
def voucher_dataframe (vouchers : List Voucher) : List VoucherRow :=
  vouchers.flatMap (fun v => v.ledger_entries.map (rowOfEntry v))

/-! ### Trial balance builders (`dashboard`) -/

/-- One row of `fetch_ledger_master`'s result. -/
structure LedgerRow where
  ledgerName : String
  ledgerParent : String
  openingRaw : String
  openingNorm : Rat
deriving DecidableEq, Repr

/-- One row of `fetch_group_master`'s result. -/
structure GroupRow where
  groupName : String
  parentNm : String
  bs_or_pnl : String
  gtype : String
  affectsGrossProfit : String
deriving DecidableEq, Repr

/-- Keys of a Python dict built by comprehension: first-insertion order,
duplicates dropped. -/
def dictKeysAux : List String → List String → List String
  | _, [] => []
  | seen, n :: rest =>
    if seen.contains n then dictKeysAux seen rest
    else n :: dictKeysAux (n :: seen) rest

def dictKeys (names : List String) : List String := dictKeysAux [] names

/-- Value of a Python dict built by comprehension: the last row with the given
key wins. -/
def lastWithKey {α : Type} (key : α → String) (rows : List α) (name : String) : Option α :=
  (rows.filter (fun r => key r == name)).getLast?

/-- Sum of the `Nett` column (`groupby("Ledger")["Nett"].sum()` for one
ledger is this over the rows filtered to that ledger). -/
def sumNett (rows : List VoucherRow) : Rat := (rows.map (·.nett)).sum

/-- One row of the Dynamic Trial Balance table. -/
structure TBRow where
  ledgerName : String
  groupName : String
  parentNm : String
  bs_or_pnl : String
  gtype : String
  affectsGrossProfit : String
  openingBalance : Rat
  t2DynamicOB : Rat
  dynamicOpening : Rat
  t2DynamicCLB : Rat
  dynamicClosing : Rat
deriving DecidableEq, Repr

/-- One row of the YTD Trial Balance table. -/
structure YTDRow where
  ledgerName : String
  groupName : String
  parentNm : String
  bs_or_pnl : String
  gtype : String
  affectsGrossProfit : String
  openingBalance : Rat
  nettYTD : Rat
  ytdclb : Rat
deriving DecidableEq, Repr

/-- Ordered insertion for the `sort_values("LedgerName")` step. -/
def insertSorted {α : Type} (key : α → String) (x : α) : List α → List α
  | [] => [x]
  | y :: ys => if key x ≤ key y then x :: y :: ys else y :: insertSorted key x ys

def sortByKey {α : Type} (key : α → String) (rows : List α) : List α :=
  rows.foldr (insertSorted key) []

/-- The row `_build_dynamic_trial_balance` builds for one ledger name, given
the date-filtered voucher table. -/
def dyn_row (ledger_rows : List LedgerRow) (group_rows : List GroupRow)
    (voucher_df : List VoucherRow) (from_date to_date fiscal_start : PyDate)
    (ledger_name : String) : TBRow :=
  let opening := ((lastWithKey (·.ledgerName) ledger_rows ledger_name).map (·.openingNorm)).getD 0
  let parent0 := ((lastWithKey (·.ledgerName) ledger_rows ledger_name).map (·.ledgerParent)).getD ""
  let parent := if parent0.isEmpty then "(Unknown)" else parent0
  let group_info := lastWithKey (·.groupName) group_rows parent
  let t2_dynamic_ob := sumNett (voucher_df.filter (fun r =>
    dateLe fiscal_start r.rdate && dateLt r.rdate from_date && r.ledger == ledger_name))
  let t2_dynamic_clb := sumNett (voucher_df.filter (fun r =>
    dateLe from_date r.rdate && dateLe r.rdate to_date && r.ledger == ledger_name))
  let dynamic_opening := opening + t2_dynamic_ob
  let dynamic_closing := dynamic_opening + t2_dynamic_clb
  { ledgerName := ledger_name
    groupName := parent
    parentNm := (group_info.map (·.parentNm)).getD parent
    bs_or_pnl := (group_info.map (·.bs_or_pnl)).getD ""
    gtype := (group_info.map (·.gtype)).getD ""
    affectsGrossProfit := (group_info.map (·.affectsGrossProfit)).getD ""
    openingBalance := opening
    t2DynamicOB := t2_dynamic_ob
    dynamicOpening := dynamic_opening
    t2DynamicCLB := t2_dynamic_clb
    dynamicClosing := dynamic_closing }

/-- `dashboard._build_dynamic_trial_balance`, as a pure function of the
already fetched vouchers and masters (the loaders are thin cached wrappers
around the fetchers).  Returns the trial balance rows together with the
supporting (date-filtered) voucher table, or the explicit error raised when
the Day Book yields no rows. -/
def build_dynamic_trial_balance (ledger_rows : List LedgerRow)
    (group_rows : List GroupRow) (vouchers : List Voucher)
    (from_date to_date : PyDate) :
    Except String (List TBRow × List VoucherRow) :=
  let fiscal_start := fiscal_year_start from_date
  let voucher_df := voucher_dataframe vouchers
  if voucher_df = [] then .error "Day Book is empty; cannot compute trial balance."
  else
    let voucher_df := voucher_df.filter (fun r => dateLe fiscal_start r.rdate)
    let rows := (dictKeys (ledger_rows.map (·.ledgerName))).map
      (dyn_row ledger_rows group_rows voucher_df from_date to_date fiscal_start)
    .ok (sortByKey (·.ledgerName) rows, voucher_df)

/-- The row `_build_ytd_trial_balance` builds for one ledger name. -/
def ytd_row (ledger_rows : List LedgerRow) (group_rows : List GroupRow)
    (voucher_df : List VoucherRow) (ledger_name : String) : YTDRow :=
  let opening := ((lastWithKey (·.ledgerName) ledger_rows ledger_name).map (·.openingNorm)).getD 0
  let parent0 := ((lastWithKey (·.ledgerName) ledger_rows ledger_name).map (·.ledgerParent)).getD ""
  let parent := if parent0.isEmpty then "(Unknown)" else parent0
  let group_info := lastWithKey (·.groupName) group_rows parent
  let nett_ytd := sumNett (voucher_df.filter (fun r => r.ledger == ledger_name))
  { ledgerName := ledger_name
    groupName := parent
    parentNm := (group_info.map (·.parentNm)).getD parent
    bs_or_pnl := (group_info.map (·.bs_or_pnl)).getD ""
    gtype := (group_info.map (·.gtype)).getD ""
    affectsGrossProfit := (group_info.map (·.affectsGrossProfit)).getD ""
    openingBalance := opening
    nettYTD := nett_ytd
    ytdclb := opening + nett_ytd }

/-- `dashboard._build_ytd_trial_balance` as a pure function of the masters and
the supporting voucher table handed over from the dynamic build. -/
def build_ytd_trial_balance (ledger_rows : List LedgerRow)
    (group_rows : List GroupRow) (voucher_df : List VoucherRow) :
    Except String (List YTDRow) :=
  if voucher_df = [] then .error "Day Book is empty; load vouchers first."
  else
    let rows := (dictKeys (ledger_rows.map (·.ledgerName))).map
      (ytd_row ledger_rows group_rows voucher_df)
    .ok (sortByKey (·.ledgerName) rows)

/-! ### Concrete fixtures used by witnesses and counterexamples -/

/-- A ledger master fixture: one ledger `Bank` under `Current Assets` with a
`10000 Dr` opening. -/
def wLedgerRows : List LedgerRow := [⟨"Bank", "Current Assets", "10000 Dr", 10000⟩]

def wGroupRows : List GroupRow :=
  [⟨"Current Assets", "Primary", "Balance Sheet", "Asset", "No"⟩]

/-- A voucher before the window (April 10) crediting `Bank` by 200. -/
def wVoucherApril : Voucher :=
  ⟨"Payment", ⟨2024, 4, 10⟩, [⟨"Bank", 200, false⟩], "", none⟩

/-- A voucher inside the window (May 1) debiting `Bank` and crediting
`Sales` by 5000. -/
def wVoucherMay : Voucher :=
  ⟨"Receipt", ⟨2024, 5, 1⟩, [⟨"Bank", 5000, true⟩, ⟨"Sales", 5000, false⟩], "", none⟩

def wVouchers : List Voucher := [wVoucherApril, wVoucherMay]

def wFrom : PyDate := ⟨2024, 5, 1⟩

def wTo : PyDate := ⟨2024, 5, 31⟩

/-- An entry element with ledger `Bank` and amount `5000`, deemed negative. -/
def wEntry : EntryElem := ⟨some "Bank", none, some "5000", some "No"⟩

/-- A voucher element whose `DATE` text has 7 characters. -/
def wBadDateElem : VoucherElem :=
  ⟨"2024033", none, none, none, none, none, none, none, none, [wEntry], [], [], []⟩

/-- A well-formed voucher element dated 20240331. -/
def wGoodElem : VoucherElem :=
  ⟨"20240331", none, some "Sales", none, none, none, none, some " memo ", some "17",
   [wEntry], [], [], []⟩

/-- A voucher element whose `DATE` text has 8 characters but month 13. -/
def wMonth13Elem : VoucherElem :=
  ⟨"20241301", none, none, none, none, none, none, none, none, [wEntry], [], [], []⟩

/-- The voucher `wGoodElem` parses to. -/
def wGoodVoucher : Voucher :=
  { voucher_type := "Sales"
    vdate := ⟨2024, 3, 31⟩
    ledger_entries := [⟨"Bank", 5000, true⟩]
    voucher_narration := "memo"
    voucher_number := some "17" }

/-- The trial-balance row the dynamic build produces for `Bank` on the
fixture data (opening 10000, pre-window +200, in-window −5000 after the
column flip). -/
def wBankTBRow : TBRow :=
  ⟨"Bank", "Current Assets", "Primary", "Balance Sheet", "Asset", "No",
   10000, 200, 10200, -5000, 5200⟩

/-- The supporting voucher table for the fixture vouchers. -/
def wVdf : List VoucherRow :=
  [⟨⟨2024, 4, 10⟩, none, "Payment", "Bank", 200, 0, 200⟩,
   ⟨⟨2024, 5, 1⟩, none, "Receipt", "Bank", 0, 5000, -5000⟩,
   ⟨⟨2024, 5, 1⟩, none, "Receipt", "Sales", 5000, 0, 5000⟩]

/-- The YTD row for `Bank` built from `wVdf`. -/
def wYtdBankRow : YTDRow :=
  ⟨"Bank", "Current Assets", "Primary", "Balance Sheet", "Asset", "No",
   10000, -4800, 5200⟩

/-! ### Helper lemmas -/

theorem mem_insertSorted {α : Type} (key : α → String) (x y : α) (l : List α) :
    y ∈ insertSorted key x l ↔ y = x ∨ y ∈ l := by
  induction l with
  | nil => simp [insertSorted]
  | cons h t ih =>
    by_cases hle : key x ≤ key h
    · simp [insertSorted, hle]
    · simp only [insertSorted, if_neg hle, List.mem_cons, ih]
      tauto

theorem mem_sortByKey {α : Type} (key : α → String) (y : α) (l : List α) :
    y ∈ sortByKey key l ↔ y ∈ l := by
  induction l with
  | nil => simp [sortByKey]
  | cons h t ih =>
    simp only [sortByKey, List.foldr_cons, List.mem_cons]
    rw [mem_insertSorted]
    simp only [sortByKey] at ih
    rw [ih]

theorem sumNett_cons (r : VoucherRow) (l : List VoucherRow) :
    sumNett (r :: l) = r.nett + sumNett l := by
  simp [sumNett]

/-- Splitting a filtered Nett sum along a second predicate. -/
theorem sumNett_filter_split (l : List VoucherRow) (p q : VoucherRow → Bool) :
    sumNett (l.filter p) =
      sumNett (l.filter (fun r => p r && q r)) +
      sumNett (l.filter (fun r => p r && !q r)) := by
  induction l with
  | nil => simp [sumNett]
  | cons h t ih =>
    by_cases hp : p h
    · by_cases hq : q h
      · simp only [List.filter_cons, hp, hq, Bool.and_self, Bool.not_true, Bool.and_false,
          Bool.and_true, if_true, Bool.false_eq_true, if_false]
        rw [sumNett_cons, sumNett_cons, ih]
        ring
      · simp only [Bool.not_eq_true] at hq
        simp only [List.filter_cons, hp, hq, Bool.and_false, Bool.not_false, Bool.and_true,
          if_true, Bool.false_eq_true, if_false]
        rw [sumNett_cons, sumNett_cons, ih]
        ring
    · simp only [Bool.not_eq_true] at hp
      simp only [List.filter_cons, hp, Bool.false_and, Bool.false_eq_true, if_false]
      exact ih

theorem dateLe_trans {a b c : PyDate} (h1 : dateLe a b = true) (h2 : dateLe b c = true) :
    dateLe a c = true := by
  simp only [dateLe, decide_eq_true_eq] at *
  omega

theorem dateLt_eq_false_iff {a b : PyDate} : dateLt a b = false ↔ dateLe b a = true := by
  simp only [dateLt, dateLe, decide_eq_true_eq, decide_eq_false_iff_not]
  omega

/-- `fiscal_year_start d ≤ d` for every valid calendar date (positive year and
day, as all dates produced by `date.fromisoformat` are). -/
theorem fiscal_year_start_le (d : PyDate) (hy : 1 ≤ d.year) (hd : 1 ≤ d.day) :
    dateLe (fiscal_year_start d) d = true := by
  unfold fiscal_year_start dateLe
  by_cases h : 4 ≤ d.month <;> simp [h] <;> omega

theorem parseAmount_nil : parseAmount [] = none := by decide

theorem parseAmount_dash : parseAmount ['-'] = none := by decide

/-! ### Claim theorems -/

/-- C1: for every opening-balance string, after stripping commas and
whitespace: a case-insensitive `Dr` suffix yields `+|number|`, a `Cr` suffix
yields `-|number|` regardless of the written sign; no suffix yields the
negation of the parsed number (`"-500"` ↦ `500`, `"500 Cr"` ↦ `-500`,
`"500"` ↦ `-500`); an unparseable string yields `0`. -/
theorem C1_normalize_drcr (s : String) (v : Rat) :
    (parseAmount (cleanBalance s) = none → normalize_drcr s = 0) ∧
    (parseAmount (cleanBalance s) = some (v, some DrCr.dr) → normalize_drcr s = pyAbs v) ∧
    (parseAmount (cleanBalance s) = some (v, some DrCr.cr) → normalize_drcr s = -(pyAbs v)) ∧
    (parseAmount (cleanBalance s) = some (v, none) → normalize_drcr s = -v) ∧
    normalize_drcr "-500" = 500 ∧ normalize_drcr "500 Cr" = -500 ∧
    normalize_drcr "500" = -500 := by
  refine ⟨?_, ?_, ?_, ?_, by decide, by decide, by decide⟩ <;> intro h <;>
    unfold normalize_drcr <;> by_cases hc : cleanBalance s = []
  · simp [hc]
  · simp [hc, h]
  · rw [hc] at h; rw [parseAmount_nil] at h; exact absurd h (by simp)
  · simp [hc, h]
  · rw [hc] at h; rw [parseAmount_nil] at h; exact absurd h (by simp)
  · simp [hc, h]
  · rw [hc] at h; rw [parseAmount_nil] at h; exact absurd h (by simp)
  · simp [hc, h]

/-- Witness for C1 at concrete suffixed inputs. -/
theorem C1_normalize_drcr_witness :
    normalize_drcr "7 dR" = pyAbs 7 ∧ normalize_drcr "-7 Cr" = -(pyAbs (-7)) :=
  ⟨(C1_normalize_drcr "7 dR" 7).2.1 (by decide),
   (C1_normalize_drcr "-7 Cr" (-7)).2.2.1 (by decide)⟩

/-- C9: on a suffix-less string that parses, the Day Book parser `_to_float`
keeps the parsed sign, so it returns the negation of what `_normalize_drcr`
returns there; on a `Dr`/`Cr`-suffixed string the two parsers agree. -/
theorem C9_to_float_vs_normalize (s : String) (v : Rat) :
    (parseAmount (cleanBalance s) = some (v, none) → to_float (some s) = v) ∧
    (parseAmount (cleanBalance s) = some (v, none) →
      to_float (some s) = -(normalize_drcr s)) ∧
    (∀ sfx : DrCr, parseAmount (cleanBalance s) = some (v, some sfx) →
      to_float (some s) = normalize_drcr s) := by
  have key : ∀ o : Option DrCr, parseAmount (cleanBalance s) = some (v, o) →
      s.isEmpty = false ∧ ¬(cleanBalance s = [] ∨ cleanBalance s = ['-']) := by
    intro o h
    constructor
    · rw [Bool.eq_false_iff]
      intro he
      rw [String.isEmpty_iff] at he
      subst he
      rw [show cleanBalance "" = [] from by decide, parseAmount_nil] at h
      exact absurd h (by simp)
    · rintro (hc | hc) <;> rw [hc] at h
      · rw [parseAmount_nil] at h; exact absurd h (by simp)
      · rw [parseAmount_dash] at h; exact absurd h (by simp)
  have hval : ∀ o : Option DrCr, parseAmount (cleanBalance s) = some (v, o) →
      to_float (some s) = (match (v, o) with
        | (v, some DrCr.cr) => -(pyAbs v)
        | (v, some DrCr.dr) => pyAbs v
        | (v, none) => v) := by
    intro o h
    obtain ⟨he, hcl⟩ := key o h
    unfold to_float
    simp only [he, Bool.false_eq_true, if_false]
    have : stripChars (removeCommas s.toList) = cleanBalance s := rfl
    rw [this]
    simp only [hcl, if_false, h]
    rcases o with - | sfx
    · rfl
    · cases sfx <;> rfl
  have hnorm : ∀ o : Option DrCr, parseAmount (cleanBalance s) = some (v, o) →
      normalize_drcr s = (match (v, o) with
        | (v, some DrCr.cr) => -(pyAbs v)
        | (v, some DrCr.dr) => pyAbs v
        | (v, none) => -v) := by
    intro o h
    obtain ⟨-, hcl⟩ := key o h
    have hc : ¬cleanBalance s = [] := fun hc => hcl (Or.inl hc)
    unfold normalize_drcr
    simp only [hc, if_false, h]
    rcases o with - | sfx
    · rfl
    · cases sfx <;> rfl
  refine ⟨fun h => hval none h, fun h => ?_, fun sfx h => ?_⟩
  · rw [hval none h, hnorm none h]
    ring
  · rw [hval (some sfx) h, hnorm (some sfx) h]
    cases sfx <;> rfl

/-- Witness for C9: `"500"` parses suffix-less, `"500 Cr"` with a suffix. -/
theorem C9_to_float_vs_normalize_witness :
    to_float (some "500") = -(normalize_drcr "500") ∧
    to_float (some "500 Cr") = normalize_drcr "500 Cr" :=
  ⟨(C9_to_float_vs_normalize "500" 500).2.1 (by decide),
   (C9_to_float_vs_normalize "500 Cr" 500).2.2 DrCr.cr (by decide)⟩

/-- C2: for every entry element, a strictly positive parsed amount is recorded
as a debit and a strictly negative one as a credit (the stored amount being
the absolute value); the deemed-positive flag decides the orientation only at
amount zero (`no`-variants → debit, `yes`-variants → credit, otherwise the
entry is dropped), and every zero-amount entry is discarded regardless. -/
theorem C2_entry_sign_resolution (e : EntryElem) (d1 d2 : String) :
    (0 < to_float e.amountText →
      extractEntry e = some ⟨entryLedgerName e, pyAbs (to_float e.amountText), true⟩) ∧
    (to_float e.amountText < 0 →
      extractEntry e = some ⟨entryLedgerName e, pyAbs (to_float e.amountText), false⟩) ∧
    (to_float e.amountText = 0 → extractEntry e = none) ∧
    (0 < to_float e.amountText ∨ to_float e.amountText < 0 → ∀ f : Option String,
      extractEntry { e with isdeemedpositive := f } = extractEntry e) ∧
    (resolveIsDebit 0 d1 = some true ↔ d1 = "no" ∨ d1 = "n" ∨ d1 = "false") ∧
    (resolveIsDebit 0 d2 = some false ↔ d2 = "yes" ∨ d2 = "y" ∨ d2 = "true") := by
  have habs : ∀ a : Rat, a ≠ 0 → ¬pyAbs a = 0 := by
    intro a ha
    unfold pyAbs
    by_cases h : a < 0
    · simp only [h, if_true]
      intro hz
      apply ha
      linarith [neg_eq_zero.mp hz]
    · simpa [h] using ha
  have hpos : ∀ (a : Rat) (d : String), 0 < a → resolveIsDebit a d = some true := by
    intro a d h
    unfold resolveIsDebit
    simp [h]
  have hneg : ∀ (a : Rat) (d : String), a < 0 → resolveIsDebit a d = some false := by
    intro a d h
    unfold resolveIsDebit
    simp [h, lt_asymm h]
  refine ⟨?_, ?_, ?_, ?_, ?_, ?_⟩
  · intro h
    unfold extractEntry
    simp [hpos _ _ h, habs _ h.ne']
  · intro h
    unfold extractEntry
    simp [hneg _ _ h, habs _ h.ne]
  · intro h
    unfold extractEntry
    rw [h]
    have h0 : pyAbs 0 = 0 := by decide
    cases hr : resolveIsDebit 0 (strLower (strStrip (e.isdeemedpositive.getD ""))) <;>
      simp [hr, h0]
  · intro hor f
    rcases hor with h | h
    · unfold extractEntry
      simp only [hpos _ _ h]
      rfl
    · unfold extractEntry
      simp only [hneg _ _ h]
      rfl
  · unfold resolveIsDebit
    simp only [lt_irrefl (0 : Rat), if_false]
    by_cases h1 : d1 = "no" ∨ d1 = "n" ∨ d1 = "false"
    · simp [h1]
    · by_cases h2 : d1 = "yes" ∨ d1 = "y" ∨ d1 = "true" <;> simp [h1, h2]
  · unfold resolveIsDebit
    simp only [lt_irrefl (0 : Rat), if_false]
    by_cases h1 : d2 = "no" ∨ d2 = "n" ∨ d2 = "false"
    · rcases h1 with rfl | rfl | rfl <;> decide
    · by_cases h2 : d2 = "yes" ∨ d2 = "y" ∨ d2 = "true" <;> simp [h1, h2]

/-- Witness for C2 at concrete entries: `-500` becomes a credit of `500`,
`500` a debit, `0` is dropped, and at zero the flag variants decide. -/
theorem C2_entry_sign_resolution_witness :
    extractEntry ⟨some "Bank", none, some "-500", none⟩ =
      some ⟨"Bank", 500, false⟩ ∧
    extractEntry ⟨some "Bank", none, some "0", some "Yes"⟩ = none ∧
    (resolveIsDebit 0 "yes" = some false ↔
      ("yes" = "yes" ∨ "yes" = "y" ∨ "yes" = "true")) := by
  have h := C2_entry_sign_resolution ⟨some "Bank", none, some "0", some "Yes"⟩ "d" "yes"
  have h2 := C2_entry_sign_resolution ⟨some "Bank", none, some "-500", none⟩ "d" "yes"
  refine ⟨?_, h.2.2.1 (by decide), h.2.2.2.2.2⟩
  have := h2.2.1 (by decide)
  rw [this]
  decide

/-- C8: vouchers whose `DATE` text is not exactly 8 characters are skipped
silently — parsing any payload gives the same result as parsing the payload
with those vouchers removed — and in the concrete scenario the 7-digit-dated
voucher is dropped while the valid one is still returned. -/
theorem C8_bad_date_skipped :
    (∀ vs : List VoucherElem,
      parse_daybook vs = parse_daybook (vs.filter (fun v => v.dateText.length == 8))) ∧
    parse_daybook [wBadDateElem, wGoodElem] = .ok [wGoodVoucher] := by
  constructor
  · intro vs
    induction vs with
    | nil => rfl
    | cons v t ih =>
      by_cases hv : v.dateText.length = 8
      · have hf : List.filter (fun v => v.dateText.length == 8) (v :: t) =
            v :: List.filter (fun v => v.dateText.length == 8) t := by
          simp [hv]
        rw [hf]
        unfold parse_daybook
        rw [ih]
      · have hf : List.filter (fun v => v.dateText.length == 8) (v :: t) =
            List.filter (fun v => v.dateText.length == 8) t := by
          simp [hv]
        have hskip : parse_voucher v = .ok none := by
          unfold parse_voucher
          simp [hv]
        rw [hf]
        conv_lhs => rw [parse_daybook]
        rw [hskip]
        exact ih
  · rfl

/-- C10: a `DATE` text of exactly 8 characters that is not a valid calendar
date (month 13 in `"20241301"`) makes the Day Book parse raise `ValueError`;
`fetch_daybook` catches only `ET.ParseError` (the `malformed` response, which
degrades to `[]`), so the whole fetch fails even though the payload also
contains a perfectly valid voucher. -/
theorem C10_invalid_calendar_date_raises :
    wMonth13Elem.dateText = "20241301" ∧
    wMonth13Elem.dateText.length = 8 ∧
    parseIsoDate8 "20241301" = none ∧
    parse_daybook [wMonth13Elem] = .error (.valueError "invalid isoformat date") ∧
    fetch_daybook (.parsed [wGoodElem, wMonth13Elem]) =
      .error (.valueError "invalid isoformat date") ∧
    fetch_daybook .malformed = .ok [] := by
  refine ⟨rfl, rfl, rfl, rfl, rfl, rfl⟩

/-- C5: when the fetched Day Book yields no voucher rows, building the
Dynamic Trial Balance raises the explicit "Day Book is empty" error and in
particular never returns a table. -/
theorem C5_empty_daybook_raises (ledger_rows : List LedgerRow)
    (group_rows : List GroupRow) (vouchers : List Voucher)
    (from_date to_date : PyDate)
    (h : voucher_dataframe vouchers = []) :
    build_dynamic_trial_balance ledger_rows group_rows vouchers from_date to_date =
      .error "Day Book is empty; cannot compute trial balance." ∧
    ∀ result, build_dynamic_trial_balance ledger_rows group_rows vouchers
      from_date to_date ≠ .ok result := by
  unfold build_dynamic_trial_balance
  simp [h]

/-- Witness for C5: an entirely empty voucher list. -/
theorem C5_empty_daybook_raises_witness :
    build_dynamic_trial_balance wLedgerRows wGroupRows [] wFrom wTo =
      .error "Day Book is empty; cannot compute trial balance." :=
  (C5_empty_daybook_raises wLedgerRows wGroupRows [] wFrom wTo (by decide)).1

unseal Rat.sub in
/-- C3 counterexample: the voucher table row built for a debit entry of 5000
has `Nett = -5000`, while the claim (`nett = debitAmount − creditAmount`,
debit entries contributing `+amount`) demands `5000 − 0 = 5000`. -/
theorem C3_counterexample :
    (rowOfEntry wVoucherMay ⟨"Bank", 5000, true⟩).nett = -5000 ∧
    ((5000 : Rat) - 0 = 5000) ∧ ¬(-5000 : Rat) = 5000 := by
  refine ⟨by decide, by decide, by decide⟩

/-- C3 amended: the source swaps the Debit/Credit columns before computing
`Nett`, so `nett = creditAmount − debitAmount` (with `debitAmount`/
`creditAmount` the entry's amount according to its `isDebit` orientation): a
debit entry contributes `−amount` and a credit entry `+amount`; within the
emitted row itself `Nett` does equal the (swapped) `Debit` column minus the
(swapped) `Credit` column. -/
theorem C3_amended_nett_flipped (v : Voucher) (e : LedgerEntry) (vs : List Voucher) :
    ((rowOfEntry v e).nett =
      (if e.is_debit then (0 : Rat) else e.amount) -
      (if e.is_debit then e.amount else 0)) ∧
    (e.is_debit = true → (rowOfEntry v e).nett = -e.amount) ∧
    (e.is_debit = false → (rowOfEntry v e).nett = e.amount) ∧
    (∀ r ∈ voucher_dataframe vs, r.nett = r.debit - r.credit) := by
  refine ⟨?_, ?_, ?_, ?_⟩
  · cases he : e.is_debit <;> simp [rowOfEntry, he]
  · intro he
    simp [rowOfEntry, he]
  · intro he
    simp [rowOfEntry, he]
  · intro r hr
    rw [voucher_dataframe] at hr
    simp only [List.mem_flatMap, List.mem_map] at hr
    obtain ⟨v', -, e', -, hre⟩ := hr
    subst hre
    cases he : e'.is_debit <;> simp [rowOfEntry, he]

/-- Witness for C3's amended theorem at a concrete debit entry. -/
theorem C3_amended_nett_flipped_witness :
    (rowOfEntry wVoucherMay ⟨"Bank", 5000, true⟩).nett = -(5000 : Rat) :=
  (C3_amended_nett_flipped wVoucherMay ⟨"Bank", 5000, true⟩ []).2.1 rfl

/-- C7 counterexample: for nature absent, group name `"Asset Income"` and an
empty parent, the nature text matches none of the keyword sets and the
name+parent concatenation contains `"asset"`, the claimed highest-priority
keyword — yet `classify_type` returns `"Income"`, because its fallback pass
checks income/revenue/sale keywords first, refuting "the same keyword sets in
the same priority". -/
theorem C7_counterexample :
    classify_type none "Asset Income" "" = "Income" ∧
    strContains (strLower ("Asset Income" ++ " " ++ "")) "asset" = true ∧
    strContains (strLower ((none : Option String).getD "")) "asset" = false ∧
    strContains (strLower ((none : Option String).getD "")) "liabilit" = false ∧
    strContains (strLower ((none : Option String).getD "")) "income" = false ∧
    strContains (strLower ((none : Option String).getD "")) "revenue" = false ∧
    strContains (strLower ((none : Option String).getD "")) "sale" = false ∧
    strContains (strLower ((none : Option String).getD "")) "expense" = false ∧
    strContains (strLower ((none : Option String).getD "")) "purchase" = false ∧
    ¬("Income" : String) = "Asset" := by
  decide

/-- C7 amended: on the nature text the priority is asset, liabilit,
income/revenue/sale, expense/purchase; when none of these match, the fallback
keyword match on `group_name + " " + parent_name` uses a DIFFERENT priority —
income/revenue/sale first, then expense/purchase, then the full word
"liability", then "asset" — and the overall default is Asset. -/
theorem C7_amended_classify_type (nature : Option String) (g p : String) :
    classify_type nature g p =
      (match natureKeywordRule (strLower (nature.getD "")) with
       | some t => t
       | none =>
         match fallbackKeywordRule (strLower (g ++ " " ++ p)) with
         | some t => t
         | none => "Asset") := by
  unfold classify_type natureKeywordRule fallbackKeywordRule
  dsimp only
  split_ifs <;> rfl

theorem dateLe_eq_false_iff {a b : PyDate} : dateLe a b = false ↔ dateLt b a = true := by
  simp only [dateLe, dateLt, decide_eq_false_iff_not, decide_eq_true_eq]
  omega

/-- The pre-window mask applied on the date-filtered table agrees with the
claim's single filter over the whole table. -/
theorem preWindow_filter_eq (vdfall : List VoucherRow) (fs from_date : PyDate)
    (name : String) :
    (vdfall.filter (fun r => dateLe fs r.rdate)).filter
      (fun r => dateLe fs r.rdate && dateLt r.rdate from_date && r.ledger == name) =
    vdfall.filter
      (fun r => r.ledger == name && dateLe fs r.rdate && dateLt r.rdate from_date) := by
  rw [List.filter_filter]
  apply List.filter_congr
  intro x _
  cases h1 : dateLe fs x.rdate <;> cases h2 : dateLt x.rdate from_date <;>
    cases h3 : x.ledger == name <;> simp [h1, h2, h3]

/-- The in-window mask applied on the fiscal-year-filtered table agrees with
the claim's single filter, because the fiscal year start never exceeds a
valid `from` date. -/
theorem inWindow_filter_eq (vdfall : List VoucherRow) (from_date to_date : PyDate)
    (name : String) (hy : 1 ≤ from_date.year) (hd : 1 ≤ from_date.day) :
    (vdfall.filter (fun r => dateLe (fiscal_year_start from_date) r.rdate)).filter
      (fun r => dateLe from_date r.rdate && dateLe r.rdate to_date && r.ledger == name) =
    vdfall.filter
      (fun r => r.ledger == name && dateLe from_date r.rdate && dateLe r.rdate to_date) := by
  rw [List.filter_filter]
  apply List.filter_congr
  intro x _
  have hfs : dateLe (fiscal_year_start from_date) from_date = true :=
    fiscal_year_start_le from_date hy hd
  cases h1 : dateLe from_date x.rdate
  · simp [h1]
  · have h4 : dateLe (fiscal_year_start from_date) x.rdate = true := dateLe_trans hfs h1
    cases h2 : dateLe x.rdate to_date <;> cases h3 : x.ledger == name <;>
      simp [h1, h2, h3, h4]

/-- On a table whose dates all lie in `[fs, to]`, a ledger's total Nett is the
sum of its pre-window (`[fs, from)`) and in-window (`[from, to]`) Netts. -/
theorem sum_window_partition (l : List VoucherRow) (from_date to_date fs : PyDate)
    (name : String)
    (hdates : ∀ r ∈ l, dateLe fs r.rdate = true ∧ dateLe r.rdate to_date = true) :
    sumNett (l.filter (fun r => r.ledger == name)) =
      sumNett (l.filter
        (fun r => dateLe fs r.rdate && dateLt r.rdate from_date && r.ledger == name)) +
      sumNett (l.filter
        (fun r => dateLe from_date r.rdate && dateLe r.rdate to_date && r.ledger == name)) := by
  rw [sumNett_filter_split l (fun r => r.ledger == name)
    (fun r => dateLt r.rdate from_date)]
  congr 1
  · apply congrArg sumNett
    apply List.filter_congr
    intro x hx
    obtain ⟨h1, -⟩ := hdates x hx
    cases h3 : dateLt x.rdate from_date <;> cases h4 : x.ledger == name <;>
      simp [h1, h3, h4]
  · apply congrArg sumNett
    apply List.filter_congr
    intro x hx
    obtain ⟨-, h2⟩ := hdates x hx
    cases h3 : dateLt x.rdate from_date
    · have h5 : dateLe from_date x.rdate = true := dateLt_eq_false_iff.mp h3
      cases h4 : x.ledger == name <;> simp [h2, h3, h4, h5]
    · have h5 : dateLe from_date x.rdate = false := by
        rw [Bool.eq_false_iff]
        intro hc
        simp only [dateLt, dateLe, decide_eq_true_eq] at h3 hc
        omega
      cases h4 : x.ledger == name <;> simp [h3, h4, h5]

/-- Inversion of a successful dynamic build: the rows are the sorted per-ledger
rows over the date-filtered voucher table, which is also the returned table. -/
theorem build_dynamic_ok_inv (ledger_rows : List LedgerRow)
    (group_rows : List GroupRow) (vouchers : List Voucher)
    (from_date to_date : PyDate) (rows : List TBRow) (vdf : List VoucherRow)
    (hok : build_dynamic_trial_balance ledger_rows group_rows vouchers
      from_date to_date = Except.ok (rows, vdf)) :
    rows = sortByKey (·.ledgerName)
      ((dictKeys (ledger_rows.map (·.ledgerName))).map
        (dyn_row ledger_rows group_rows
          ((voucher_dataframe vouchers).filter
            (fun r => dateLe (fiscal_year_start from_date) r.rdate))
          from_date to_date (fiscal_year_start from_date))) ∧
    vdf = (voucher_dataframe vouchers).filter
      (fun r => dateLe (fiscal_year_start from_date) r.rdate) := by
  by_cases hemp : voucher_dataframe vouchers = []
  · unfold build_dynamic_trial_balance at hok
    simp [hemp] at hok
  · unfold build_dynamic_trial_balance at hok
    simp only [hemp, if_false, Except.ok.injEq, Prod.mk.injEq] at hok
    exact ⟨hok.1.symm, hok.2.symm⟩

/-- Inversion of a successful YTD build. -/
theorem build_ytd_ok_inv (ledger_rows : List LedgerRow)
    (group_rows : List GroupRow) (vdf : List VoucherRow) (rowsY : List YTDRow)
    (h : build_ytd_trial_balance ledger_rows group_rows vdf = Except.ok rowsY) :
    rowsY = sortByKey (·.ledgerName)
      ((dictKeys (ledger_rows.map (·.ledgerName))).map
        (ytd_row ledger_rows group_rows vdf)) := by
  by_cases hemp : vdf = []
  · unfold build_ytd_trial_balance at h
    simp [hemp] at h
  · unfold build_ytd_trial_balance at h
    simp only [hemp, if_false, Except.ok.injEq] at h
    exact h.symm

/-- C4: in every successfully built Dynamic Trial Balance for a window with
`from ≤ to` (and a valid calendar `from` date), each row satisfies
`DynamicOpening = OpeningBalance + Σ Nett over [fiscalYearStart(from), from)`
and `DynamicClosing = DynamicOpening + Σ Nett over [from, to]`, the sums
ranging over that ledger's voucher-table rows. -/
theorem C4_dynamic_invariant (ledger_rows : List LedgerRow)
    (group_rows : List GroupRow) (vouchers : List Voucher)
    (from_date to_date : PyDate) (rows : List TBRow) (vdf : List VoucherRow)
    (hy : 1 ≤ from_date.year) (hd : 1 ≤ from_date.day)
    (hft : dateLe from_date to_date = true)
    (hok : build_dynamic_trial_balance ledger_rows group_rows vouchers
      from_date to_date = Except.ok (rows, vdf)) :
    ∀ row ∈ rows,
      row.dynamicOpening = row.openingBalance +
        sumNett ((voucher_dataframe vouchers).filter (fun r =>
          r.ledger == row.ledgerName &&
          dateLe (fiscal_year_start from_date) r.rdate &&
          dateLt r.rdate from_date)) ∧
      row.dynamicClosing = row.dynamicOpening +
        sumNett ((voucher_dataframe vouchers).filter (fun r =>
          r.ledger == row.ledgerName &&
          dateLe from_date r.rdate && dateLe r.rdate to_date)) := by
  intro row hrow
  obtain ⟨hrows, -⟩ := build_dynamic_ok_inv ledger_rows group_rows vouchers
    from_date to_date rows vdf hok
  subst hrows
  rw [mem_sortByKey, List.mem_map] at hrow
  obtain ⟨name, -, hrr⟩ := hrow
  subst hrr
  constructor
  · simp only [dyn_row]
    rw [preWindow_filter_eq]
  · simp only [dyn_row]
    rw [inWindow_filter_eq _ _ _ _ hy hd]

/-- C6: when every voucher-table row is dated inside the fiscal span
`[fiscalYearStart(from), to]`, a Dynamic Trial Balance over `[from, to]` and a
YTD Trial Balance built from the same masters and the same supporting voucher
table agree: per ledger, `DynamicClosing = YTDCLB`. -/
theorem C6_dynamic_vs_ytd (ledger_rows : List LedgerRow)
    (group_rows : List GroupRow) (vouchers : List Voucher)
    (from_date to_date : PyDate) (rowsD : List TBRow) (vdf : List VoucherRow)
    (rowsY : List YTDRow)
    (hdates : ∀ r ∈ voucher_dataframe vouchers,
      dateLe (fiscal_year_start from_date) r.rdate = true ∧
      dateLe r.rdate to_date = true)
    (hft : dateLe from_date to_date = true)
    (hok : build_dynamic_trial_balance ledger_rows group_rows vouchers
      from_date to_date = Except.ok (rowsD, vdf))
    (hytd : build_ytd_trial_balance ledger_rows group_rows vdf = Except.ok rowsY) :
    ∀ rd ∈ rowsD, ∀ ry ∈ rowsY, rd.ledgerName = ry.ledgerName →
      rd.dynamicClosing = ry.ytdclb := by
  intro rd hrd ry hry hname
  obtain ⟨hrowsD, hvdf⟩ := build_dynamic_ok_inv ledger_rows group_rows vouchers
    from_date to_date rowsD vdf hok
  subst hvdf
  have hrowsY := build_ytd_ok_inv ledger_rows group_rows _ rowsY hytd
  subst hrowsD
  subst hrowsY
  rw [mem_sortByKey, List.mem_map] at hrd hry
  obtain ⟨nameD, -, hrdEq⟩ := hrd
  obtain ⟨nameY, -, hryEq⟩ := hry
  subst hrdEq
  subst hryEq
  have hnm : nameD = nameY := by simpa [dyn_row, ytd_row] using hname
  subst hnm
  have hF : (voucher_dataframe vouchers).filter
      (fun r => dateLe (fiscal_year_start from_date) r.rdate) =
      voucher_dataframe vouchers :=
    List.filter_eq_self.mpr (fun a ha => (hdates a ha).1)
  simp only [dyn_row, ytd_row]
  rw [hF]
  rw [sum_window_partition (voucher_dataframe vouchers) from_date to_date
    (fiscal_year_start from_date) nameD hdates]
  ring

unseal Rat.add Rat.sub in
/-- Witness for C4 on the fixture company: the Bank row of the build over
May 2024 satisfies both rollforward equations. -/
theorem C4_dynamic_invariant_witness :
    wBankTBRow.dynamicOpening = wBankTBRow.openingBalance +
      sumNett ((voucher_dataframe wVouchers).filter (fun r =>
        r.ledger == wBankTBRow.ledgerName &&
        dateLe (fiscal_year_start wFrom) r.rdate && dateLt r.rdate wFrom)) ∧
    wBankTBRow.dynamicClosing = wBankTBRow.dynamicOpening +
      sumNett ((voucher_dataframe wVouchers).filter (fun r =>
        r.ledger == wBankTBRow.ledgerName &&
        dateLe wFrom r.rdate && dateLe r.rdate wTo)) :=
  C4_dynamic_invariant wLedgerRows wGroupRows wVouchers wFrom wTo
    [wBankTBRow] wVdf (by decide) (by decide) (by decide) (by decide)
    wBankTBRow (by decide)

unseal Rat.add Rat.sub in
/-- Witness for C6 on the fixture company: Bank's dynamic closing equals its
YTD closing. -/
theorem C6_dynamic_vs_ytd_witness :
    wBankTBRow.dynamicClosing = wYtdBankRow.ytdclb :=
  C6_dynamic_vs_ytd wLedgerRows wGroupRows wVouchers wFrom wTo
    [wBankTBRow] wVdf [wYtdBankRow] (by decide) (by decide) (by decide)
    (by decide) wBankTBRow (by decide) wYtdBankRow (by decide) rfl

end Tally
